import Mathlib

/-!
Verification development for the StellAI / ClueEngine sources.

Floating-point values are modelled as exact rationals (`ℚ`); every float
value appearing in the claims under scrutiny is either a literal constant
(so the rational model is exact) or is only compared for equality between
two runs whose inputs agree, where determinism of the arithmetic makes the
rational model adequate.  The transcendental library calls `sinf`, `cosf`
and `sqrtf` used by the terrain generator are kept abstract: the terrain
definitions are parametrised over an arbitrary interpretation of those
three functions, so each theorem about them holds for the actual float
semantics in particular.

C strings are modelled as Lean strings (the prompts exercised by the code
are byte-per-char ASCII), buffers written through pointers as functions
`ℕ → Char` from byte offsets to contents, and a nullable pointer argument
as an explicit `Bool` flag plus the buffer.  The OpenGL handle fields
(`VAO`, `VBO`, `EBO`) and the GL calls are irrelevant to every claim and
are omitted from the mesh model; `malloc` failure paths are likewise cut
off, as every claim is conditioned on allocations succeeding.
-/

/-- Vector3 of rational coordinates, standing for the C `Vector3` of three floats. -/
structure V3 where
  x : ℚ
  y : ℚ
  z : ℚ
deriving DecidableEq

/-- One entry of the C `Vertex` struct: position, normal, texture coordinates. -/
structure VertexT where
  position : V3
  normal : V3
  texCoords : ℚ × ℚ
deriving DecidableEq

/-- The C `Mesh` struct restricted to its data fields (the GL handle fields
`VAO`, `VBO`, `EBO` carry no data relevant to any claim). -/
structure MeshT where
  numVertices : ℕ
  numIndices : ℕ
  vertices : List VertexT
  indices : List ℕ
deriving DecidableEq

/-- The C `Model` struct: `meshCount` is represented by `meshes.length`,
and the `path` char array by an unbounded string. -/
structure ModelT where
  meshes : List MeshT
  path : String
deriving DecidableEq

/-- Default mesh used only as the `headD` fallback in theorem statements. -/
def emptyMesh : MeshT := ⟨0, 0, [], []⟩

/-- StellAI::ModelGen::ModelGenParams from StellAI.hpp. -/
structure ModelGenParams where
  prompt : String
  complexity : ℚ
  resolution : ℤ
  texturing : Bool
  size : V3

/-- Transcription of the local `Vertex cubeVertices[8]` array of
`ModelGenerator::generateFromText` in src/src/core/StellAI.cpp
(`size = 0.5f`, so every position coordinate is `±1/2`). -/
def cubeVertices : List VertexT :=
  [ ⟨⟨-(1/2), -(1/2),  1/2⟩, ⟨0, 0, 1⟩, (0, 0)⟩
  , ⟨⟨ 1/2, -(1/2),  1/2⟩, ⟨0, 0, 1⟩, (1, 0)⟩
  , ⟨⟨ 1/2,  1/2,  1/2⟩, ⟨0, 0, 1⟩, (1, 1)⟩
  , ⟨⟨-(1/2),  1/2,  1/2⟩, ⟨0, 0, 1⟩, (0, 1)⟩
  , ⟨⟨-(1/2), -(1/2), -(1/2)⟩, ⟨0, 0, -1⟩, (1, 0)⟩
  , ⟨⟨ 1/2, -(1/2), -(1/2)⟩, ⟨0, 0, -1⟩, (0, 0)⟩
  , ⟨⟨ 1/2,  1/2, -(1/2)⟩, ⟨0, 0, -1⟩, (0, 1)⟩
  , ⟨⟨-(1/2),  1/2, -(1/2)⟩, ⟨0, 0, -1⟩, (1, 1)⟩ ]

/-- Transcription of the local `unsigned int cubeIndices[36]` array of
`ModelGenerator::generateFromText` in src/src/core/StellAI.cpp. -/
def cubeIndices : List ℕ :=
  [ 0, 1, 2, 0, 2, 3
  , 4, 5, 6, 4, 6, 7
  , 4, 0, 3, 4, 3, 7
  , 1, 5, 6, 1, 6, 2
  , 0, 1, 5, 0, 5, 4
  , 3, 2, 6, 3, 6, 7 ]

/-- Character test of the `for (char& c : safeName)` replacement loop in
`ModelGenerator::generateFromText`. -/
def isSpecialChar (c : Char) : Bool :=
  c = ' ' || c = '/' || c = '\\' || c = ':' || c = '*' || c = '?' ||
  c = '"' || c = '<' || c = '>' || c = '|'

/-- The `safeName` computation of `ModelGenerator::generateFromText`:
truncate the prompt to 20 characters plus `"..."`, then replace special
characters by underscores. -/
def safeName (prompt : String) : String :=
  let s := if prompt.length > 20 then prompt.take 20 ++ "..." else prompt
  String.mk (s.toList.map fun c => if isSpecialChar c then '_' else c)

/-- ModelGenerator::generateFromText from src/src/core/StellAI.cpp
(allocation-success path; GL buffer creation omitted). -/
def generateFromText (params : ModelGenParams) : ModelT :=
  { meshes := [⟨8, 36, cubeVertices, cubeIndices⟩]
  , path := "generated_model_" ++ safeName params.prompt }

/-- The cube mesh as the claim describes it: the 8 corners of the cube of
half-extent `0.5`, with the normals and texture coordinates listed in the
code, and the 36-entry index list spelled out in the claim text. -/
def claimCubeMesh : MeshT :=
  { numVertices := 8
  , numIndices := 36
  , vertices :=
      [ ⟨⟨-(1/2), -(1/2),  1/2⟩, ⟨0, 0, 1⟩, (0, 0)⟩
      , ⟨⟨ 1/2, -(1/2),  1/2⟩, ⟨0, 0, 1⟩, (1, 0)⟩
      , ⟨⟨ 1/2,  1/2,  1/2⟩, ⟨0, 0, 1⟩, (1, 1)⟩
      , ⟨⟨-(1/2),  1/2,  1/2⟩, ⟨0, 0, 1⟩, (0, 1)⟩
      , ⟨⟨-(1/2), -(1/2), -(1/2)⟩, ⟨0, 0, -1⟩, (1, 0)⟩
      , ⟨⟨ 1/2, -(1/2), -(1/2)⟩, ⟨0, 0, -1⟩, (0, 0)⟩
      , ⟨⟨ 1/2,  1/2, -(1/2)⟩, ⟨0, 0, -1⟩, (0, 1)⟩
      , ⟨⟨-(1/2),  1/2, -(1/2)⟩, ⟨0, 0, -1⟩, (1, 1)⟩ ]
  , indices :=
      [0, 1, 2, 0, 2, 3, 4, 5, 6, 4, 6, 7, 4, 0, 3, 4, 3, 7,
       1, 5, 6, 1, 6, 2, 0, 1, 5, 0, 5, 4, 3, 2, 6, 3, 6, 7] }

/-- Transcription of the `Vertex cubeVertices[8]` array of the second copy of
`ModelGenerator::generateFromText` (src/unnamed/part_006). -/
def cubeVerticesB : List VertexT :=
  [ ⟨⟨-(1/2), -(1/2),  1/2⟩, ⟨0, 0, 1⟩, (0, 0)⟩
  , ⟨⟨ 1/2, -(1/2),  1/2⟩, ⟨0, 0, 1⟩, (1, 0)⟩
  , ⟨⟨ 1/2,  1/2,  1/2⟩, ⟨0, 0, 1⟩, (1, 1)⟩
  , ⟨⟨-(1/2),  1/2,  1/2⟩, ⟨0, 0, 1⟩, (0, 1)⟩
  , ⟨⟨-(1/2), -(1/2), -(1/2)⟩, ⟨0, 0, -1⟩, (1, 0)⟩
  , ⟨⟨ 1/2, -(1/2), -(1/2)⟩, ⟨0, 0, -1⟩, (0, 0)⟩
  , ⟨⟨ 1/2,  1/2, -(1/2)⟩, ⟨0, 0, -1⟩, (0, 1)⟩
  , ⟨⟨-(1/2),  1/2, -(1/2)⟩, ⟨0, 0, -1⟩, (1, 1)⟩ ]

/-- Transcription of the `unsigned int cubeIndices[36]` array of the second
copy of `ModelGenerator::generateFromText` (src/unnamed/part_006). -/
def cubeIndicesB : List ℕ :=
  [ 0, 1, 2, 0, 2, 3
  , 4, 5, 6, 4, 6, 7
  , 4, 0, 3, 4, 3, 7
  , 1, 5, 6, 1, 6, 2
  , 0, 1, 5, 0, 5, 4
  , 3, 2, 6, 3, 6, 7 ]

/-- Character test of the replacement loop in the second copy of
`ModelGenerator::generateFromText` (src/unnamed/part_006). -/
def isSpecialCharB (c : Char) : Bool :=
  c = ' ' || c = '/' || c = '\\' || c = ':' || c = '*' || c = '?' ||
  c = '"' || c = '<' || c = '>' || c = '|'

/-- The `safeName` computation of the second copy of
`ModelGenerator::generateFromText` (src/unnamed/part_006). -/
def safeNameB (prompt : String) : String :=
  let s := if prompt.length > 20 then prompt.take 20 ++ "..." else prompt
  String.mk (s.toList.map fun c => if isSpecialCharB c then '_' else c)

/-- ModelGenerator::generateFromText as duplicated in src/unnamed/part_006
(allocation-success path; GL buffer creation omitted). -/
def generateFromTextB (params : ModelGenParams) : ModelT :=
  { meshes := [⟨8, 36, cubeVerticesB, cubeIndicesB⟩]
  , path := "generated_model_" ++ safeNameB params.prompt }

/-- The C `PBRMaterial` struct restricted to the texture-handle fields the
generator touches (`albedoMap` … `aoMap`). -/
structure PBRMaterialT where
  albedoMap : ℕ
  normalMap : ℕ
  metallicMap : ℕ
  roughnessMap : ℕ
  aoMap : ℕ
deriving DecidableEq

/-- ModelGenerator::generateMaterial from src/src/core/StellAI.cpp.  The
global `materials` array together with `materialCount` is modelled by a list
whose length is the count; the `model` pointer (possibly null) by an
`Option`.  The code zero-initialises a local material and overwrites it with
`materials[0]` whenever `materialCount > 0`. -/
def generateMaterial (materials : List PBRMaterialT) (_model : Option ModelT)
    (_description : String) : PBRMaterialT :=
  let material : PBRMaterialT := ⟨0, 0, 0, 0, 0⟩
  if materials.length > 0 then materials.headD material else material

/-- State of the `StellAI::Engine` singleton: the `initialized` flag (here
named `inited`) and the `aiEnabled` flag. -/
structure EngineState where
  inited : Bool
  aiEnabled : Bool
deriving DecidableEq

/-- Engine::initialize from src/src/core/StellAI.cpp (the src/unnamed/part_006
copy acts identically on these two fields): bail out returning `false` when
already initialised, otherwise set `aiEnabled` from the argument, mark
initialised and return `true`. -/
def engineInit (s : EngineState) (enableAI : Bool) : Bool × EngineState :=
  if s.inited then (false, s)
  else (true, { inited := true, aiEnabled := enableAI })

/-- StellAI::Version::toString from StellAI.hpp:
`to_string(MAJOR) + "." + to_string(MINOR) + "." + to_string(PATCH)` with
`MAJOR = 0`, `MINOR = 1`, `PATCH = 0`. -/
def versionToString : String :=
  toString (0 : ℕ) ++ "." ++ toString (1 : ℕ) ++ "." ++ toString (0 : ℕ)

/-- The static helper `safeCopyString` of src/unnamed/part_005: a null or
non-positive-size destination is rejected; otherwise
`copyLength = min(src.length(), destSize - 1)` characters are copied,
a NUL terminator is written at offset `copyLength`, and every other byte of
the destination is left as it was.  The destination buffer is a function
from byte offsets to contents; `destNull` models a null `dest` pointer. -/
def safeCopyString (src : List Char) (destNull : Bool) (destSize : ℤ)
    (dest : ℕ → Char) : Bool × (ℕ → Char) :=
  if destNull ∨ destSize ≤ 0 then (false, dest)
  else
    let copyLength := min src.length (destSize - 1).toNat
    (true, fun i =>
      if i < copyLength then src.getD i (Char.ofNat 0)
      else if i = copyLength then Char.ofNat 0
      else dest i)

/-- StellAI_GetVersion from src/unnamed/part_005: reject a null buffer or a
non-positive size, otherwise copy `Version::toString()` via
`safeCopyString`. -/
def stellaiGetVersion (bufNull : Bool) (bufferSize : ℤ) (buf : ℕ → Char) :
    Bool × (ℕ → Char) :=
  if bufNull ∨ bufferSize ≤ 0 then (false, buf)
  else safeCopyString versionToString.toList bufNull bufferSize buf

/-- StellAI::WorldGen::TerrainParams from StellAI.hpp. -/
structure TerrainParams where
  scale : ℚ
  roughness : ℚ
  amplitude : ℚ
  octaves : ℤ
  seed : ℤ
  position : V3

/-- Abstract interpretation of the float library calls `sinf`, `cosf` and
`sqrtf` made by the terrain generator; every terrain theorem quantifies over
it, so it holds for the actual float library in particular. -/
structure FloatFns where
  sinf : ℚ → ℚ
  cosf : ℚ → ℚ
  sqrtf : ℚ → ℚ

/-- One entry of the heightmap filled by `TerrainGenerator::generateTerrain`:
`amplitude * (sin(xf * 5 * scale) * cos(zf * 5 * scale) * roughness)` with
`xf = x / width`, `zf = z / depth` and `width = depth = 100`. -/
def heightAt (F : FloatFns) (p : TerrainParams) (x z : ℕ) : ℚ :=
  let xf : ℚ := (x : ℚ) / 100
  let zf : ℚ := (z : ℚ) / 100
  p.amplitude * (F.sinf (xf * 5 * p.scale) * F.cosf (zf * 5 * p.scale) * p.roughness)

/-- The vertex written at heightmap cell `(x, z)` by
`TerrainGenerator::generateTerrain`: position `x - width/2 + position.x`,
`height + position.y`, `z - depth/2 + position.z`; texture coordinates
`x/width, z/depth`; and for interior cells a central-difference normal
`(hL - hR, 2, hD - hU)` (the default up vector `(0, 1, 0)` on the border),
normalised through `sqrtf` when the computed length is positive. -/
def terrainVertex (F : FloatFns) (p : TerrainParams) (x z : ℕ) : VertexT :=
  let pos : V3 :=
    ⟨(x : ℚ) - 50 + p.position.x, heightAt F p x z + p.position.y,
     (z : ℚ) - 50 + p.position.z⟩
  let n0 : V3 :=
    if 0 < x ∧ x < 99 ∧ 0 < z ∧ z < 99 then
      ⟨heightAt F p (x - 1) z - heightAt F p (x + 1) z, 2,
       heightAt F p x (z - 1) - heightAt F p x (z + 1)⟩
    else ⟨0, 1, 0⟩
  let len : ℚ := F.sqrtf (n0.x * n0.x + n0.y * n0.y + n0.z * n0.z)
  let nrm : V3 := if 0 < len then ⟨n0.x / len, n0.y / len, n0.z / len⟩ else n0
  ⟨pos, nrm, ((x : ℚ) / 100, (z : ℚ) / 100)⟩

/-- The terrain vertex array in write order (`z` outer loop, `x` inner
loop, vertex `(x, z)` stored at offset `z * width + x`). -/
def terrainVertices (F : FloatFns) (p : TerrainParams) : List VertexT :=
  (List.range 100).flatMap fun z => (List.range 100).map fun x => terrainVertex F p x z

/-- The six indices written for grid cell `(x, z)` by the triangulation
loop of `TerrainGenerator::generateTerrain`. -/
def quadIndices (z x : ℕ) : List ℕ :=
  let topLeft := z * 100 + x
  let topRight := topLeft + 1
  let bottomLeft := (z + 1) * 100 + x
  let bottomRight := bottomLeft + 1
  [topLeft, bottomLeft, bottomRight, topLeft, bottomRight, topRight]

/-- The terrain index array in write order (`z` outer loop over `depth - 1`
rows, `x` inner loop over `width - 1` columns). -/
def terrainIndices : List ℕ :=
  (List.range 99).flatMap fun z => (List.range 99).flatMap fun x => quadIndices z x

/-- TerrainGenerator::generateTerrain from src/src/core/StellAI.cpp
(allocation-success path; GL buffer creation omitted; the src/unnamed/part_006
copy is textually identical on this function). -/
def generateTerrain (F : FloatFns) (p : TerrainParams) : ModelT :=
  { meshes :=
      [⟨100 * 100, (100 - 1) * (100 - 1) * 6, terrainVertices F p, terrainIndices⟩]
  , path := "generated_terrain" }

/-- Modelled from the spec: the scene-object registry behind ObjectManager.h.
The struct `ObjectManager` (a fixed `objects[MAX_OBJECTS]` array with
`MAX_OBJECTS = 1000` plus a `count`) is declared in
src/include/resources/ObjectManager.h, but the implementations of
`initObjectManager`, `addObjectToManager`, `addObject`, `removeObject`,
`updateObjectInManager` and `cleanupObjects` are missing from the sources
(only the header and GUI callers are present); the operations are modelled
here from the spec's description of a fixed-capacity array-backed table.
The occupied prefix of the array is a list whose length is `count`; scene
objects themselves are abstract. -/
structure ObjectManagerT (α : Type) where
  objects : List α

/-- Modelled from the spec: `MAX_OBJECTS` from ObjectManager.h. -/
def MAX_OBJECTS : ℕ := 1000

/-- Modelled from the spec: the `count` field of the registry, the number of
occupied slots of the fixed array. -/
def ObjectManagerT.count {α : Type} (om : ObjectManagerT α) : ℕ :=
  om.objects.length

/-- Modelled from the spec: `initObjectManager` starts with an empty table. -/
def initObjectManager {α : Type} : ObjectManagerT α := ⟨[]⟩

/-- Modelled from the spec: `addObjectToManager` appends the new object when
the table is not full and otherwise leaves the table unchanged. -/
def addObjectToManager {α : Type} (om : ObjectManagerT α) (o : α) :
    ObjectManagerT α :=
  if om.objects.length < MAX_OBJECTS then ⟨om.objects ++ [o]⟩ else om

/-- Modelled from the spec: `addObject` builds a scene object from the
camera/type/texture/material arguments and registers it through
`addObjectToManager`; the built object is abstracted as the argument `o`. -/
def addObject {α : Type} (om : ObjectManagerT α) (o : α) : ObjectManagerT α :=
  addObjectToManager om o

/-- Modelled from the spec: `removeObject` deletes the entry at a valid
index, shifting later entries down; an invalid index is a no-op. -/
def removeObject {α : Type} (om : ObjectManagerT α) (i : ℕ) : ObjectManagerT α :=
  if i < om.objects.length then ⟨om.objects.eraseIdx i⟩ else om

/-- Modelled from the spec: `updateObjectInManager` overwrites the entry at
a valid index in place. -/
def updateObjectInManager {α : Type} (om : ObjectManagerT α) (i : ℕ) (o : α) :
    ObjectManagerT α :=
  if i < om.objects.length then ⟨om.objects.set i o⟩ else om

/-- Modelled from the spec: `cleanupObjects` empties the table. -/
def cleanupObjects {α : Type} (_om : ObjectManagerT α) : ObjectManagerT α := ⟨[]⟩

/-- Modelled from the spec: one entry of the command-history stack declared
in actions.h (whose implementation is missing from the sources): a
reversible edit records either the object that was added or the removed
object together with the index it was removed from. -/
inductive ActionT (α : Type) where
  | addObj (o : α)
  | removeObj (i : ℕ) (o : α)

/-- Modelled from the spec: the editor state acted on by the command
pattern, pairing the scene-object registry with the undo and redo stacks. -/
structure EditorState (α : Type) where
  registry : List α
  undoStack : List (ActionT α)
  redoStack : List (ActionT α)

/-- Modelled from the spec: `addObjectWithAction` performs the add and
records it on the history stack (a fresh edit clears the redo stack); a
full table is a no-op. -/
def addObjectWithAction {α : Type} (s : EditorState α) (o : α) : EditorState α :=
  if s.registry.length < MAX_OBJECTS then
    ⟨s.registry ++ [o], ActionT.addObj o :: s.undoStack, []⟩
  else s

/-- Modelled from the spec: `removeObjectWithAction` removes the entry at a
valid index and records the removed object together with its index (a fresh
edit clears the redo stack); an invalid index is a no-op. -/
def removeObjectWithAction {α : Type} (s : EditorState α) (i : ℕ) : EditorState α :=
  if h : i < s.registry.length then
    ⟨s.registry.eraseIdx i,
     ActionT.removeObj i (s.registry.get ⟨i, h⟩) :: s.undoStack, []⟩
  else s

/-- Modelled from the spec: `undo_last_action` pops the most recent action,
applies its inverse to the registry and moves the action to the redo
stack; with an empty history it is a no-op. -/
def undo_last_action {α : Type} (s : EditorState α) : EditorState α :=
  match s.undoStack with
  | [] => s
  | ActionT.addObj o :: rest =>
      ⟨s.registry.dropLast, rest, ActionT.addObj o :: s.redoStack⟩
  | ActionT.removeObj i o :: rest =>
      ⟨s.registry.insertIdx i o, rest, ActionT.removeObj i o :: s.redoStack⟩

/-- Modelled from the spec: `redo_last_action` pops the most recently undone
action, re-applies it to the registry and moves the action back to the undo
stack; with an empty redo stack it is a no-op. -/
def redo_last_action {α : Type} (s : EditorState α) : EditorState α :=
  match s.redoStack with
  | [] => s
  | ActionT.addObj o :: rest =>
      ⟨s.registry ++ [o], ActionT.addObj o :: s.undoStack, rest⟩
  | ActionT.removeObj i o :: rest =>
      ⟨s.registry.eraseIdx i, ActionT.removeObj i o :: s.undoStack, rest⟩

/-- C1: for every `ModelGenParams`, `ModelGenerator::generateFromText`
returns a model with exactly one mesh, that mesh is the fixed half-extent
`0.5` cube with the fixed 36-entry index list, the mesh is independent of
every parameter field, and the path depends on nothing but the prompt. -/
theorem c1_generateFromText_fixed_cube (p : ModelGenParams) :
    (generateFromText p).meshes = [claimCubeMesh] ∧
    (∀ q : ModelGenParams, (generateFromText p).meshes = (generateFromText q).meshes) ∧
    (∀ c r t s c' r' t' s',
      (generateFromText ⟨p.prompt, c, r, t, s⟩).path =
        (generateFromText ⟨p.prompt, c', r', t', s'⟩).path) := by
  refine ⟨?_, fun q => rfl, fun _ _ _ _ _ _ _ _ => rfl⟩
  show [(⟨8, 36, cubeVertices, cubeIndices⟩ : MeshT)] = [claimCubeMesh]
  rfl

/-- C8: the two source copies of `ModelGenerator::generateFromText`
(src/src/core/StellAI.cpp and src/unnamed/part_006) return models with
identical mesh data and identical path strings on every input. -/
theorem c8_generateFromText_copies_equal (p : ModelGenParams) :
    generateFromText p = generateFromTextB p := rfl

/-- C3: with at least one loaded material, `ModelGenerator::generateMaterial`
returns the stock material `materials[0]`, and its result never depends on
the model argument or the description string. -/
theorem c3_generateMaterial_stock (m0 : PBRMaterialT) (rest : List PBRMaterialT)
    (model₁ model₂ : Option ModelT) (d₁ d₂ : String) :
    generateMaterial (m0 :: rest) model₁ d₁ = m0 ∧
    (∀ mats : List PBRMaterialT,
      generateMaterial mats model₁ d₁ = generateMaterial mats model₂ d₂) := by
  refine ⟨?_, fun mats => rfl⟩
  simp [generateMaterial]

/-- C7: `Engine::initialize` returns `false` exactly when the engine is
already initialised, in which case the state is untouched; otherwise it
returns `true`, marks the engine initialised and stores the `enableAI`
argument. -/
theorem c7_engineInit_guard (s : EngineState) (e : Bool) :
    ((engineInit s e).1 = false ↔ s.inited = true) ∧
    (engineInit s e).2 = (if s.inited then s else ⟨true, e⟩) := by
  cases h : s.inited <;> simp [engineInit, h]

/-- Helper: `Version::toString()` evaluates to the literal `"0.1.0"`. -/
theorem versionToString_eq : versionToString = "0.1.0" := rfl

/-- Helper: the character list of the version string. -/
theorem versionToList_eq : versionToString.toList = ['0', '.', '1', '.', '0'] := rfl

/-- C9: `StellAI_GetVersion` fails exactly on a null buffer or a
non-positive size; on success the buffer holds the version string `"0.1.0"`
truncated to `min 5 (bufferSize - 1)` characters followed by a NUL
terminator, and no byte at offset `bufferSize` or beyond is modified. -/
theorem c9_getVersion_spec (bufNull : Bool) (size : ℤ) (buf : ℕ → Char) :
    ((stellaiGetVersion bufNull size buf).1 = false ↔ (bufNull = true ∨ size ≤ 0)) ∧
    ((stellaiGetVersion bufNull size buf).1 = true →
      (∀ i, i < min 5 (size - 1).toNat →
        (stellaiGetVersion bufNull size buf).2 i = "0.1.0".toList.getD i (Char.ofNat 0)) ∧
      (stellaiGetVersion bufNull size buf).2 (min 5 (size - 1).toNat) = Char.ofNat 0 ∧
      (∀ i : ℕ, size ≤ (i : ℤ) → (stellaiGetVersion bufNull size buf).2 i = buf i)) := by
  by_cases h : (bufNull = true ∨ size ≤ 0)
  · simp only [stellaiGetVersion, if_pos h]
    exact ⟨by simpa using h, fun hfalse => absurd hfalse (by simp)⟩
  · have hs : ¬ size ≤ 0 := fun hle => h (Or.inr hle)
    have hsnd : ∀ i, (stellaiGetVersion bufNull size buf).2 i =
        (if i < min 5 (size - 1).toNat
         then versionToString.toList.getD i (Char.ofNat 0)
         else if i = min 5 (size - 1).toNat then Char.ofNat 0 else buf i) := by
      intro i
      simp only [stellaiGetVersion, safeCopyString, if_neg h,
        show versionToString.toList.length = 5 from rfl]
    refine ⟨by simp [stellaiGetVersion, safeCopyString, if_neg h, h], fun _ => ⟨?_, ?_, ?_⟩⟩
    · intro i hi
      rw [hsnd i, if_pos hi]
      rfl
    · rw [hsnd, if_neg (lt_irrefl _), if_pos rfl]
    · intro i hsize
      have h1 : ¬ i < min 5 (size - 1).toNat := by omega
      have h2 : ¬ i = min 5 (size - 1).toNat := by omega
      rw [hsnd i, if_neg h1, if_neg h2]

/-- Witness for C9 at a concrete input: a non-null buffer of size 3 filled
with `'A'` succeeds, and the byte at offset 7 is untouched. -/
theorem c9_getVersion_spec_witness :
    (stellaiGetVersion false 3 (fun _ => 'A')).1 = true ∧
    (stellaiGetVersion false 3 (fun _ => 'A')).2 7 = 'A' := by
  have h := (c9_getVersion_spec false 3 (fun _ => 'A')).2 (by decide)
  exact ⟨by decide, h.2.2 7 (by decide)⟩

/-- Helper: length of a concatenation of constant-length blocks. -/
theorem length_flatMap_const {α β : Type} (f : α → List β) (c : ℕ) :
    ∀ l : List α, (∀ a ∈ l, (f a).length = c) → (l.flatMap f).length = c * l.length := by
  intro l
  induction l with
  | nil => intro _; simp
  | cons a l ih =>
    intro h
    have ha := h a (List.mem_cons_self a l)
    have hl := ih fun b hb => h b (List.mem_cons_of_mem a hb)
    simp only [List.flatMap_cons, List.length_append, List.length_cons, ha, hl]
    ring

/-- Helper: dropping `i` whole blocks of a constant-block-length
concatenation drops the first `i` generators. -/
theorem drop_flatMap_const {α β : Type} (f : α → List β) (c : ℕ) :
    ∀ (l : List α) (i : ℕ), (∀ a ∈ l, (f a).length = c) →
      (l.flatMap f).drop (c * i) = (l.drop i).flatMap f := by
  intro l
  induction l with
  | nil => intro i _; simp
  | cons a l ih =>
    intro i h
    cases i with
    | zero => simp
    | succ i =>
      have ha := h a (List.mem_cons_self a l)
      have hl := ih i fun b hb => h b (List.mem_cons_of_mem a hb)
      calc ((a :: l).flatMap f).drop (c * (i + 1))
          = (f a ++ l.flatMap f).drop ((f a).length + c * i) := by
            rw [List.flatMap_cons, ha]
            congr 1
            ring
        _ = (l.flatMap f).drop (c * i) := by simp [List.drop_append]
        _ = (l.drop i).flatMap f := hl

/-- Helper: the `i`-th block of a constant-block-length concatenation. -/
theorem take_drop_flatMap_const {α β : Type} (f : α → List β) (c : ℕ)
    (l : List α) (i : ℕ) (h : ∀ a ∈ l, (f a).length = c) (hi : i < l.length) :
    ((l.flatMap f).drop (c * i)).take c = f (l.get ⟨i, hi⟩) := by
  rw [drop_flatMap_const f c l i h]
  rw [List.drop_eq_getElem_cons hi, List.flatMap_cons]
  have hc := h l[i] (l.getElem_mem hi)
  rw [← hc]
  simp

/-- C2: `TerrainGenerator::generateTerrain` returns a model with exactly one
mesh of `100 * 100` vertices and `(100-1)*(100-1)*6` indices, whose index
array is independent of every parameter and follows the fixed
two-triangles-per-quad pattern: the block of six indices for cell `(x, z)`
is `topLeft, bottomLeft, bottomRight, topLeft, bottomRight, topRight` with
`topLeft = z*100 + x`. -/
theorem c2_generateTerrain_shape (F : FloatFns) (p : TerrainParams) :
    (generateTerrain F p).meshes.length = 1 ∧
    ((generateTerrain F p).meshes.headD emptyMesh).vertices.length = 100 * 100 ∧
    ((generateTerrain F p).meshes.headD emptyMesh).indices.length =
      (100 - 1) * (100 - 1) * 6 ∧
    (∀ (G : FloatFns) (q : TerrainParams),
      ((generateTerrain F p).meshes.headD emptyMesh).indices =
        ((generateTerrain G q).meshes.headD emptyMesh).indices) ∧
    (∀ z x, z ≤ 98 → x ≤ 98 →
      ((((generateTerrain F p).meshes.headD emptyMesh).indices.drop
          (6 * (z * 99 + x))).take 6) =
        [z * 100 + x, (z + 1) * 100 + x, (z + 1) * 100 + x + 1,
         z * 100 + x, (z + 1) * 100 + x + 1, z * 100 + x + 1]) := by
  have hquad : ∀ z x : ℕ, (quadIndices z x).length = 6 := by
    intro z x; simp [quadIndices]
  have hinner : ∀ z, ((List.range 99).flatMap fun x => quadIndices z x).length = 594 := by
    intro z
    have := length_flatMap_const (fun x => quadIndices z x) 6 (List.range 99)
      (fun a _ => hquad z a)
    simpa using this
  refine ⟨rfl, ?_, ?_, fun G q => rfl, ?_⟩
  · show (terrainVertices F p).length = 100 * 100
    have := length_flatMap_const (fun z => (List.range 100).map fun x => terrainVertex F p x z)
      100 (List.range 100) (fun a _ => by simp)
    simpa [terrainVertices] using this
  · show terrainIndices.length = (100 - 1) * (100 - 1) * 6
    have := length_flatMap_const (fun z => (List.range 99).flatMap fun x => quadIndices z x)
      594 (List.range 99) (fun a _ => hinner a)
    simpa [terrainIndices] using this
  · intro z x hz hx
    show ((terrainIndices.drop (6 * (z * 99 + x))).take 6) = _
    have hz' : z < 99 := by omega
    have hx' : x < 99 := by omega
    have houter := take_drop_flatMap_const
      (fun z => (List.range 99).flatMap fun x => quadIndices z x) 594 (List.range 99) z
      (fun a _ => hinner a) (by simpa using hz')
    have hget : (List.range 99).get ⟨z, by simpa using hz'⟩ = z := by simp
    rw [hget] at houter
    have hxblock := take_drop_flatMap_const (fun x => quadIndices z x) 6 (List.range 99) x
      (fun a _ => hquad z a) (by simpa using hx')
    have hgetx : (List.range 99).get ⟨x, by simpa using hx'⟩ = x := by simp
    rw [hgetx] at hxblock
    have hsplit : terrainIndices.drop (6 * (z * 99 + x)) =
        (terrainIndices.drop (594 * z)).drop (6 * x) := by
      rw [List.drop_drop]
      congr 1
      ring
    rw [hsplit]
    have hD : ((terrainIndices.drop (594 * z)).drop (6 * x)).take 6 =
        (((terrainIndices.drop (594 * z)).take 594).drop (6 * x)).take 6 := by
      rw [List.drop_take, List.take_take]
      congr 1
      omega
    have houter' : (terrainIndices.drop (594 * z)).take 594 =
        (List.range 99).flatMap fun x => quadIndices z x := houter
    rw [hD, houter', hxblock]
    rfl

/-- Witness for C2 at a concrete input: the first six terrain indices form
the quad `0, 100, 101, 0, 101, 1`. -/
theorem c2_generateTerrain_shape_witness :
    (((generateTerrain ⟨fun _ => 0, fun _ => 0, fun _ => 0⟩
        ⟨1, 1, 1, 4, 12345, ⟨0, 0, 0⟩⟩).meshes.headD emptyMesh).indices.drop
          (6 * (0 * 99 + 0))).take 6 =
      [0 * 100 + 0, (0 + 1) * 100 + 0, (0 + 1) * 100 + 0 + 1,
       0 * 100 + 0, (0 + 1) * 100 + 0 + 1, 0 * 100 + 0 + 1] :=
  (c2_generateTerrain_shape ⟨fun _ => 0, fun _ => 0, fun _ => 0⟩
    ⟨1, 1, 1, 4, 12345, ⟨0, 0, 0⟩⟩).2.2.2.2 0 0 (by omega) (by omega)

/-- C4: `TerrainGenerator::generateTerrain` performs no seeded inference:
two parameter records agreeing on `scale`, `roughness`, `amplitude` and
`position` but with arbitrary `seed` and `octaves` fields produce identical
models, for every interpretation of the float library calls. -/
theorem c4_generateTerrain_seed_oblivious (F : FloatFns)
    (scale roughness amplitude : ℚ) (pos : V3) (o₁ s₁ o₂ s₂ : ℤ) :
    generateTerrain F ⟨scale, roughness, amplitude, o₁, s₁, pos⟩ =
      generateTerrain F ⟨scale, roughness, amplitude, o₂, s₂, pos⟩ := rfl

/-- C5: the scene-object registry is a fixed-capacity table: the initial
count is 0, every registry operation keeps `count ≤ 1000` (the count is a
`ℕ`, so `0 ≤ count` is inherent), and an add against a full table leaves
the table unchanged. -/
theorem c5_objectManager_capacity {α : Type} :
    (initObjectManager (α := α)).count = 0 ∧
    (∀ (om : ObjectManagerT α) (o : α), om.count ≤ 1000 →
      (addObjectToManager om o).count ≤ 1000 ∧ (addObject om o).count ≤ 1000) ∧
    (∀ (om : ObjectManagerT α) (i : ℕ), om.count ≤ 1000 →
      (removeObject om i).count ≤ 1000) ∧
    (∀ (om : ObjectManagerT α) (i : ℕ) (o : α), om.count ≤ 1000 →
      (updateObjectInManager om i o).count ≤ 1000) ∧
    (∀ om : ObjectManagerT α, (cleanupObjects om).count ≤ 1000) ∧
    (∀ (om : ObjectManagerT α) (o : α), 1000 ≤ om.count →
      addObjectToManager om o = om) := by
  refine ⟨rfl, ?_, ?_, ?_, ?_, ?_⟩
  · intro om o h
    have key : (addObjectToManager om o).count ≤ 1000 := by
      simp only [addObjectToManager, ObjectManagerT.count, MAX_OBJECTS] at *
      split_ifs with hlt
      · simp only [List.length_append, List.length_cons, List.length_nil]
        omega
      · exact h
    exact ⟨key, key⟩
  · intro om i h
    simp only [removeObject, ObjectManagerT.count] at *
    split_ifs with hlt
    · simp only [List.length_eraseIdx_of_lt hlt]
      omega
    · exact h
  · intro om i o h
    simp only [updateObjectInManager, ObjectManagerT.count] at *
    split_ifs with hlt
    · simpa using h
    · exact h
  · intro om
    simp [cleanupObjects, ObjectManagerT.count]
  · intro om o h
    simp only [ObjectManagerT.count] at h
    simp only [addObjectToManager, MAX_OBJECTS]
    rw [if_neg (by omega)]

/-- Witness for C5 at a concrete registry: adding to and removing from a
one-element table keeps the count within the 1000-slot capacity. -/
theorem c5_objectManager_capacity_witness :
    (addObjectToManager (⟨[0]⟩ : ObjectManagerT ℕ) 5).count ≤ 1000 ∧
    (removeObject (⟨[0]⟩ : ObjectManagerT ℕ) 0).count ≤ 1000 :=
  ⟨((c5_objectManager_capacity.2.1 ⟨[0]⟩ 5) (by decide)).1,
   (c5_objectManager_capacity.2.2.1 ⟨[0]⟩ 0) (by decide)⟩

/-- Helper: reinserting the removed element at its index restores a list. -/
theorem insertIdx_eraseIdx_self {α : Type} :
    ∀ (l : List α) (i : ℕ) (h : i < l.length),
      (l.eraseIdx i).insertIdx i (l.get ⟨i, h⟩) = l := by
  intro l
  induction l with
  | nil => intro i h; exact absurd h (by simp)
  | cons a l ih =>
    intro i h
    cases i with
    | zero => rfl
    | succ i =>
      have h' : i < l.length := by simpa using h
      show a :: (l.eraseIdx i).insertIdx i (l.get ⟨i, h'⟩) = a :: l
      exact congrArg (a :: ·) (ih i h')

/-- C6: edits recorded on the command-history stack are reversible: on any
editor state, `addObjectWithAction` (below capacity) or
`removeObjectWithAction` (at a valid index) followed by `undo_last_action`
restores the registry, and a subsequent `redo_last_action` restores the
post-edit registry. -/
theorem c6_undo_redo_roundtrip {α : Type} (s : EditorState α) :
    (∀ o : α, s.registry.length < 1000 →
      (undo_last_action (addObjectWithAction s o)).registry = s.registry ∧
      (redo_last_action (undo_last_action (addObjectWithAction s o))).registry =
        (addObjectWithAction s o).registry) ∧
    (∀ i : ℕ, i < s.registry.length →
      (undo_last_action (removeObjectWithAction s i)).registry = s.registry ∧
      (redo_last_action (undo_last_action (removeObjectWithAction s i))).registry =
        (removeObjectWithAction s i).registry) := by
  constructor
  · intro o h
    have hs : addObjectWithAction s o =
        ⟨s.registry ++ [o], ActionT.addObj o :: s.undoStack, []⟩ := by
      simp [addObjectWithAction, MAX_OBJECTS, h]
    rw [hs]
    constructor
    · show (s.registry ++ [o]).dropLast = s.registry
      exact List.dropLast_concat ..
    · show (s.registry ++ [o]).dropLast ++ [o] = s.registry ++ [o]
      rw [List.dropLast_concat]
  · intro i h
    have hs : removeObjectWithAction s i =
        ⟨s.registry.eraseIdx i,
         ActionT.removeObj i (s.registry.get ⟨i, h⟩) :: s.undoStack, []⟩ := by
      simp [removeObjectWithAction, h]
    rw [hs]
    constructor
    · show (s.registry.eraseIdx i).insertIdx i (s.registry.get ⟨i, h⟩) = s.registry
      exact insertIdx_eraseIdx_self s.registry i h
    · show ((s.registry.eraseIdx i).insertIdx i (s.registry.get ⟨i, h⟩)).eraseIdx i =
        s.registry.eraseIdx i
      rw [insertIdx_eraseIdx_self s.registry i h]

/-- Witness for C6 at a concrete editor state: undo after an add restores
the registry `[10, 20, 30]`, and redo after undoing a removal restores the
post-removal registry. -/
theorem c6_undo_redo_roundtrip_witness :
    (undo_last_action
      (addObjectWithAction (⟨[10, 20, 30], [], []⟩ : EditorState ℕ) 7)).registry =
        [10, 20, 30] ∧
    (redo_last_action (undo_last_action
      (removeObjectWithAction (⟨[10, 20, 30], [], []⟩ : EditorState ℕ) 1))).registry =
        (removeObjectWithAction (⟨[10, 20, 30], [], []⟩ : EditorState ℕ) 1).registry :=
  ⟨((c6_undo_redo_roundtrip ⟨[10, 20, 30], [], []⟩).1 7 (by decide)).1,
   ((c6_undo_redo_roundtrip ⟨[10, 20, 30], [], []⟩).2 1 (by decide)).2⟩
